import Mathlib

/-!
Verification of the `gcc_tester` library and its marker-controlled test.

The embedding covers the two member functions of `gcc_tester::GccTester`
(`src/gcc_tester/src/gcc_tester.cpp`) and the conditional test
`TEST(GccTesterBasic, IsEvenWorks)` (`src/gcc_tester/tests/test_gcc_tester.cpp`).
C++ `int` values are modelled as mathematical integers; where overflow can
matter, results are wrapped into the 32-bit two's-complement range
explicitly.  The C++ `%` operator truncates toward zero, which is `Int.tmod`.
-/

namespace GccTester

/-- Lower bound of the platform C++ `int` range (32-bit two's complement). -/
def INT_MIN : Int := -(2 ^ 31)

/-- Upper bound of the platform C++ `int` range (32-bit two's complement). -/
def INT_MAX : Int := 2 ^ 31 - 1

/-- Wrap a mathematical integer into the 32-bit two's-complement `int` range,
modelling the machine-level result an `int` holds after arithmetic. -/
def wrap32 (n : Int) : Int := (n + 2 ^ 31) % 2 ^ 32 - 2 ^ 31

/-- `GccTester::add` from `src/gcc_tester/src/gcc_tester.cpp`:
`return a + b;` on C++ `int` operands. -/
def add (a b : Int) : Int := wrap32 (a + b)

/-- `GccTester::is_even` from `src/gcc_tester/src/gcc_tester.cpp`:
`return (v % 2) == 0;` where C++ `%` is truncated (toward-zero) modulus,
i.e. `Int.tmod`. -/
def is_even (v : Int) : Bool := v.tmod 2 == 0

/-- The two external signals the test `TEST(GccTesterBasic, IsEvenWorks)` in
`src/gcc_tester/tests/test_gcc_tester.cpp` branches on: whether the build
sets the `FAIL_TEST` macro, and whether opening the marker file
`/tmp/gcc_tester_fail_marker` for reading succeeds (`fh.good()`). -/
structure OracleEnv where
  failTestFlag : Bool
  markerGood : Bool

/-- The sequence of gtest assertion outcomes (`true` = the EXPECT passed) of
`TEST(GccTesterBasic, IsEvenWorks)`: first `EXPECT_TRUE(t.is_even(2))`, then
either `EXPECT_TRUE(false)` (under `FAIL_TEST`), or `EXPECT_TRUE(t.is_even(3))`
(marker readable), or `EXPECT_FALSE(t.is_even(3))`.  `EXPECT_TRUE(e)` passes
iff `e` is true and `EXPECT_FALSE(e)` passes iff `e` is false. -/
def oracleAssertions (env : OracleEnv) : List Bool :=
  is_even 2 ::
    (if env.failTestFlag then
      [false]
    else if env.markerGood then
      [is_even 3]
    else
      [!is_even 3])

/-- The test passes iff every one of its assertions passes. -/
def oraclePasses (env : OracleEnv) : Bool :=
  (oracleAssertions env).all (fun b => b)

/-- Modelled from the spec: the reference Oracle algorithm of spec section 4.2,
which first computes `result = is_even 3` and only then branches on the
compile-time flag and the marker signal, asserting `result == true` when the
marker is present and `result == false` otherwise. -/
def oracleSpecPasses (env : OracleEnv) : Bool :=
  let result := is_even 3
  if env.failTestFlag then
    false
  else if env.markerGood then
    result == true
  else
    result == false

/-- A run of the test seen at the filesystem level: the compile-time flag,
whether the marker file can be opened for reading, and the bytes the marker
file holds.  The test only ever consults `fh.good()`, never the content. -/
structure FsEnv where
  failTestFlag : Bool
  markerOpenable : Bool
  markerBytes : List UInt8

/-- The pass/fail outcome of the test in a filesystem-level environment: the
code reads nothing from the marker file beyond `fh.good()`. -/
def runOracle (fs : FsEnv) : Bool :=
  oraclePasses (OracleEnv.mk fs.failTestFlag fs.markerOpenable)

/-- Bridge lemma: `is_even` returns `true` exactly on the integers that are
divisible by two. -/
theorem is_even_iff_dvd (v : Int) : is_even v = true ↔ 2 ∣ v := by
  simp only [is_even, beq_iff_eq]
  exact Int.dvd_iff_tmod_eq_zero.symm

/-- Bridge lemma: truncated modulus of a negative integer not divisible by two
is `-1` (not `1`). -/
theorem tmod_two_of_neg_odd (v : Int) (hv : v < 0) (ho : ¬ 2 ∣ v) :
    v.tmod 2 = -1 := by
  obtain ⟨n, rfl⟩ := Int.eq_negSucc_of_lt_zero hv
  have hn : ¬ 2 ∣ (n + 1 : Nat) := by
    intro h
    apply ho
    have h2 : (2 : Int) ∣ ((n + 1 : Nat) : Int) := Int.natCast_dvd_natCast.mpr h
    simpa [Int.negSucc_eq] using h2.neg_right
  have hmod : (n + 1) % 2 = 1 := by omega
  show Int.tmod (Int.negSucc n) 2 = -1
  simp [Int.tmod, hmod]

/-- Claim C1: for every integer `v`, `is_even v` returns `true` iff `v` is
evenly divisible by two; in particular it returns `true` for `0` and for every
even integer, positive or negative. -/
theorem is_even_correct (v : Int) : is_even v = true ↔ 2 ∣ v :=
  is_even_iff_dvd v

/-- Claim C2: for all `int`-representable `a` and `b` whose sum is within the
representable `int` range, `add a b` returns the arithmetic sum `a + b`. -/
theorem add_correct (a b : Int)
    (hs : INT_MIN ≤ a + b ∧ a + b ≤ INT_MAX) :
    add a b = a + b := by
  unfold add wrap32
  unfold INT_MIN INT_MAX at hs
  omega

/-- Witness for `add_correct` at `a = 1`, `b = 2`. -/
theorem add_correct_witness : add 1 2 = 1 + 2 :=
  add_correct 1 2 (by decide)

/-- Claim C3: when the marker is readable and `FAIL_TEST` is absent, the test
runs `EXPECT_TRUE(t.is_even(3))` as its parity assertion; `is_even 3` is
`false`, so that assertion fails and the test fails. -/
theorem marker_forces_failure (env : OracleEnv)
    (hf : env.failTestFlag = false) (hm : env.markerGood = true) :
    oracleAssertions env = [is_even 2, is_even 3] ∧
      is_even 3 = false ∧ oraclePasses env = false := by
  refine ⟨?_, by decide, ?_⟩ <;>
    simp [oracleAssertions, oraclePasses, hf, hm, is_even, Int.tmod]

/-- Witness for `marker_forces_failure` at the environment with the flag clear
and the marker readable. -/
theorem marker_forces_failure_witness :
    oracleAssertions (OracleEnv.mk false true) = [is_even 2, is_even 3] ∧
      is_even 3 = false ∧ oraclePasses (OracleEnv.mk false true) = false :=
  marker_forces_failure (OracleEnv.mk false true) rfl rfl

/-- Claim C4: whenever the `FAIL_TEST` compile-time flag is set, the test
fails, regardless of the marker signal. -/
theorem flag_forces_failure (env : OracleEnv) (hf : env.failTestFlag = true) :
    oraclePasses env = false := by
  simp [oraclePasses, oracleAssertions, hf]

/-- Witness for `flag_forces_failure` with the flag set and the marker
readable. -/
theorem flag_forces_failure_witness :
    oraclePasses (OracleEnv.mk true true) = false :=
  flag_forces_failure (OracleEnv.mk true true) rfl

/-- Claim C5: when the `FAIL_TEST` flag is absent and the marker is not
readable, every assertion of the test passes: the test passes. -/
theorem normal_run_passes (env : OracleEnv)
    (hf : env.failTestFlag = false) (hm : env.markerGood = false) :
    oraclePasses env = true := by
  simp [oraclePasses, oracleAssertions, hf, hm, is_even, Int.tmod]

/-- Witness for `normal_run_passes` at the environment with both signals
clear. -/
theorem normal_run_passes_witness :
    oraclePasses (OracleEnv.mk false false) = true :=
  normal_run_passes (OracleEnv.mk false false) rfl rfl

/-- Claim C6: for every integer `v`, `is_even v = is_even (-v)`. -/
theorem is_even_neg (v : Int) : is_even v = is_even (-v) := by
  rw [Bool.eq_iff_iff, is_even_iff_dvd, is_even_iff_dvd]
  exact dvd_neg.symm

/-- Claim C7: for every integer `v`, `is_even v ≠ is_even (v + 1)`. -/
theorem is_even_succ (v : Int) : is_even v ≠ is_even (v + 1) := by
  intro h
  rw [Bool.eq_iff_iff, is_even_iff_dvd, is_even_iff_dvd] at h
  omega

/-- Claim C8: for every combination of the two signals, the pass/fail outcome
of the code (which branches first and computes `is_even 3` inside each branch)
equals that of the reference algorithm of the spec (which computes
`result = is_even 3` first and then branches). -/
theorem oracle_refines_spec (env : OracleEnv) :
    oraclePasses env = oracleSpecPasses env := by
  rcases env with ⟨f, m⟩
  cases f <;> cases m <;> rfl

/-- Claim C9: for every negative integer `v`, `is_even v` agrees with
mathematical parity — `true` exactly on the even negatives — even though the
truncated modulus of a negative odd `v` by 2 is `-1`, not `1`; the comparison
against `0` makes the sign convention irrelevant. -/
theorem is_even_neg_inputs (v : Int) (hv : v < 0) :
    (is_even v = true ↔ 2 ∣ v) ∧ (¬ 2 ∣ v → v.tmod 2 = -1) :=
  ⟨is_even_iff_dvd v, fun ho => tmod_two_of_neg_odd v hv ho⟩

/-- Witness for `is_even_neg_inputs` at `v = -3`. -/
theorem is_even_neg_inputs_witness :
    (is_even (-3) = true ↔ 2 ∣ (-3 : Int)) ∧
      (¬ 2 ∣ (-3 : Int) → Int.tmod (-3) 2 = -1) :=
  is_even_neg_inputs (-3) (by decide)

/-- Claim C10: the pass/fail outcome of the test depends only on the
compile-time flag and on whether the marker file opens for reading — never on
the marker file's bytes: two filesystem environments agreeing on those two
signals produce the same outcome. -/
theorem oracle_noninterference (a b : FsEnv)
    (hf : a.failTestFlag = b.failTestFlag)
    (hm : a.markerOpenable = b.markerOpenable) :
    runOracle a = runOracle b := by
  unfold runOracle
  rw [hf, hm]

/-- Witness for `oracle_noninterference`: two environments differing only in
the marker bytes yield the same outcome. -/
theorem oracle_noninterference_witness :
    runOracle (FsEnv.mk false true [65, 66]) =
      runOracle (FsEnv.mk false true []) :=
  oracle_noninterference (FsEnv.mk false true [65, 66]) (FsEnv.mk false true [])
    rfl rfl

end GccTester
